import Mathlib

/-!
Shallow embedding of the protection layer of the price-comparison app
(source file app.py): client rate limiting with temporary blocking,
per-query abuse throttling, TTL result cache, input validation, upstream
result normalization and post-processing.  Timestamps are modelled as
integers (seconds); Python dictionaries keyed by strings are modelled as
total functions with Option values (or list values for defaultdict(list)).
All definitions are executable.
-/

/-- Set of characters stripped by the Python str.strip() method. -/
def pyIsSpace (c : Char) : Bool :=
  c = ' ' || c = '\t' || c = '\n' || c = '\x0d' || c = '\x0b' || c = '\x0c'

/-- Model of Python str.strip(): drop whitespace from both ends. -/
def pyStrip (s : String) : String :=
  String.mk (((s.data.dropWhile pyIsSpace).reverse.dropWhile pyIsSpace).reverse)

/-- Model of Python str.lower() (ASCII letters, which is all the app uses). -/
def pyLower (s : String) : String :=
  String.mk (s.data.map Char.toLower)

/-- Boolean list-prefix test used by the string helpers below. -/
def isPrefixList : List Char → List Char → Bool
  | [], _ => true
  | _ :: _, [] => false
  | a :: ns, b :: ms => a == b && isPrefixList ns ms

/-- Model of the Python substring test (the in operator on strings). -/
def containsSub (needle : List Char) : List Char → Bool
  | [] => isPrefixList needle []
  | c :: t => isPrefixList needle (c :: t) || containsSub needle t

/-- Model of Python str.startswith. -/
def pyStartsWith (s pre : String) : Bool :=
  isPrefixList pre.data s.data

/-- Model of Python str.join with a separator string. -/
def pyJoin (sep : String) : List String → String
  | [] => ""
  | p :: ps => ps.foldl (fun acc x => acc ++ sep ++ x) p

/-- Core of string replace: replace every occurrence of the nonempty
pattern left to right, as Python str.replace does.  The fuel argument
only makes the recursion structural: every step consumes at least one
character, so with fuel equal to the text length the zero-fuel arm is
never reached. -/
def replaceFuel (pat rep : List Char) : Nat → List Char → List Char
  | _, [] => []
  | 0, l => l
  | fuel + 1, c :: cs =>
      if isPrefixList pat (c :: cs) then
        rep ++ replaceFuel pat rep fuel (cs.drop (pat.length - 1))
      else
        c :: replaceFuel pat rep fuel cs

/-- Model of Python str.replace (all occurrences, left to right). -/
def pyReplace (s pat rep : String) : String :=
  match pat.data with
  | [] => s
  | _ :: _ => String.mk (replaceFuel pat.data rep.data s.data.length s.data)

/-- Python truthiness of a string: nonempty strings are truthy. -/
def pyTruthy (s : String) : Bool := !(s == "")

/-- Python truthiness of an optional string (None is falsy). -/
def pyTruthyOpt : Option String → Bool
  | none => false
  | some s => pyTruthy s

/-- Model of the Python expression (a or b) on optional strings. -/
def pyOr (a b : Option String) : Option String :=
  if pyTruthyOpt a then a else b

/-- Mini SOC configuration constant RATE_LIMIT from app.py. -/
def RATE_LIMIT : Nat := 10

/-- Mini SOC configuration constant WINDOW_SIZE (seconds) from app.py. -/
def WINDOW_SIZE : Int := 60

/-- Mini SOC configuration constant BLOCK_TIME (seconds) from app.py. -/
def BLOCK_TIME : Int := 15 * 60

/-- Mini SOC configuration constant CACHE_TTL (seconds) from app.py. -/
def CACHE_TTL : Int := 20 * 60

/-- One normalized listing record, the dict appended to products in
get_product_prices.  The link can be None in Python, hence Option. -/
structure Listing where
  title : String
  price : String
  rating : Option String
  reviews : Option String
  link : Option String
  store : String
  image : String
deriving DecidableEq

/-- One entry produced by log_event: event name, client ip, metadata
key-value pairs, and level. -/
structure LogEvent where
  event : String
  ip : String
  meta : List (String × String)
  level : String
deriving DecidableEq

/-- The process-wide mutable state of app.py: request_log (defaultdict of
timestamp lists), blocked_ips (dict of expiry instants), cache (dict of
listings plus store instant) and query_counter (defaultdict of timestamp
lists). -/
structure AppState where
  request_log : String → List Int
  blocked_ips : String → Option Int
  cache : String → Option (List Listing × Int)
  query_counter : String → List Int

/-- Pointwise update of a string-keyed map, modelling dict assignment. -/
def updF {β : Type} (f : String → β) (k : String) (v : β) : String → β :=
  fun x => if x = k then v else f x

/-- The initial (startup) state: all four collections empty. -/
def initState : AppState :=
  { request_log := fun _ => []
  , blocked_ips := fun _ => none
  , cache := fun _ => none
  , query_counter := fun _ => [] }

/-- Pruning of a sliding window to entries with now - t < WINDOW_SIZE,
as in is_rate_limited. -/
def pruneWindow (now : Int) (l : List Int) : List Int :=
  l.filter (fun t => now - t < WINDOW_SIZE)

/-- The part of is_rate_limited after the blocked_ips check: prune the
window, promote to a block when the pruned length reaches RATE_LIMIT,
otherwise record the call. -/
def rlCore (st : AppState) (ip : String) (now : Int) :
    Bool × AppState × List LogEvent :=
  let pruned := pruneWindow now (st.request_log ip)
  if RATE_LIMIT ≤ pruned.length then
    (true,
     { st with request_log := updF st.request_log ip pruned
             , blocked_ips := updF st.blocked_ips ip (some (now + BLOCK_TIME)) },
     [⟨"RATE_LIMIT_BLOCK", ip, [("count", toString pruned.length)], "WARN"⟩])
  else
    (false,
     { st with request_log := updF st.request_log ip (pruned ++ [now]) },
     [])

/-- Embedding of is_rate_limited from app.py: an active block denies with
no state change, an expired block is deleted, then the sliding window
logic of rlCore runs. -/
def is_rate_limited (st : AppState) (ip : String) (now : Int) :
    Bool × AppState × List LogEvent :=
  match st.blocked_ips ip with
  | some b =>
      if now < b then (true, st, [])
      else rlCore { st with blocked_ips := updF st.blocked_ips ip none } ip now
  | none => rlCore st ip now

/-- The blocked_patterns denylist from is_valid_query in app.py. -/
def blocked_patterns : List String :=
  ["<script", "\x22", ";", "\x2d\x2d", "\x2f\x2a", "\x2a\x2f", " or ", " and "]

/-- Embedding of is_valid_query from app.py: falsy input rejected,
stripped length must lie in [3, 100], and the lowercased stripped query
must contain no denylisted substring. -/
def is_valid_query (q : String) : Bool :=
  if q == "" then false
  else
    let qs := pyStrip q
    if qs.length < 3 || 100 < qs.length then false
    else
      let lq := pyLower qs
      !(blocked_patterns.any (fun b => containsSub b.data lq.data))

/-- Elements of the regex pattern built by weight_in_title: after
re.escape, every character of the token is a literal, and the replace of
kg inserts whitespace-star, optional hyphen, whitespace-star before the
literal letters k g. -/
inductive RElem where
  | lit : Char → RElem
  | wsStar : RElem
  | optHyphen : RElem
deriving DecidableEq

/-- Compilation of the lowered weight token into the regex of
weight_in_title: re.escape makes every character literal (k and g are
never escaped), then each occurrence of kg is replaced by the pattern
whitespace-star optional-hyphen whitespace-star k g, left to right. -/
def compileWeight : List Char → List RElem
  | 'k' :: 'g' :: rest =>
      RElem.wsStar :: RElem.optHyphen :: RElem.wsStar ::
        RElem.lit 'k' :: RElem.lit 'g' :: compileWeight rest
  | c :: rest => RElem.lit c :: compileWeight rest
  | [] => []

/-- Suffixes of the text reachable by consuming zero or more leading
whitespace characters; used to give the whitespace-star element its
backtracking semantics. -/
def wsSuffixes : List Char → List (List Char)
  | [] => [[]]
  | c :: cs => (c :: cs) :: (if c.isWhitespace then wsSuffixes cs else [])

/-- Regex matching at the start of the text, with the usual backtracking
semantics for the whitespace-star and optional-hyphen elements. -/
def matchAt : List RElem → List Char → Bool
  | [], _ => true
  | RElem.lit c :: ps, hay =>
      match hay with
      | d :: ds => c == d && matchAt ps ds
      | [] => false
  | RElem.optHyphen :: ps, hay =>
      matchAt ps hay ||
        (match hay with
         | '-' :: ds => matchAt ps ds
         | _ => false)
  | RElem.wsStar :: ps, hay => (wsSuffixes hay).any (fun h2 => matchAt ps h2)

/-- Model of re.search: the pattern matches at some start position. -/
def rsearch (pat : List RElem) : List Char → Bool
  | [] => matchAt pat []
  | c :: t => matchAt pat (c :: t) || rsearch pat t

/-- Embedding of weight_in_title from app.py: an empty token always
passes, otherwise the compiled pattern is searched in the lowered
title. -/
def weight_in_title (title weight : String) : Bool :=
  if weight = "" then true
  else rsearch (compileWeight (pyLower weight).data) (pyLower title).data

/-- Digit run consumed by the float parser: accumulates value and digit
count, allowing single underscores between digits as Python does. -/
def digitsAux (acc cnt : Nat) : List Char → Nat × Nat × List Char
  | [] => (acc, cnt, [])
  | c :: cs =>
      if c.isDigit then digitsAux (acc * 10 + (c.toNat - 48)) (cnt + 1) cs
      else if c = '_' then
        match cs with
        | d :: ds =>
            if d.isDigit then digitsAux (acc * 10 + (d.toNat - 48)) (cnt + 1) ds
            else (acc, cnt, c :: cs)
        | [] => (acc, cnt, c :: cs)
      else (acc, cnt, c :: cs)

/-- Parse a nonempty digit run; fails when the first character is not an
ASCII digit. -/
def parseDigits (l : List Char) : Option (Nat × Nat × List Char) :=
  match l with
  | c :: cs => if c.isDigit then some (digitsAux (c.toNat - 48) 1 cs) else none
  | [] => none

/-- Mantissa of the Python float grammar: digits with an optional
fractional part, or a leading decimal point followed by digits. -/
def parseMantissa (l : List Char) : Option (ℚ × List Char) :=
  match l with
  | '.' :: r =>
      match parseDigits r with
      | some (fv, fc, rest) => some ((fv : ℚ) / (10 : ℚ) ^ fc, rest)
      | none => none
  | _ =>
      match parseDigits l with
      | some (iv, _, r1) =>
          match r1 with
          | '.' :: r2 =>
              match parseDigits r2 with
              | some (fv, fc, rest) =>
                  some ((iv : ℚ) + (fv : ℚ) / (10 : ℚ) ^ fc, rest)
              | none => some ((iv : ℚ), r2)
          | _ => some ((iv : ℚ), r1)
      | none => none

/-- Exponent part of the float grammar: sign and mandatory digits. -/
def expAux (v : ℚ) (r : List Char) : Option (ℚ × List Char) :=
  let sr := match r with
    | '+' :: t => (true, t)
    | '-' :: t => (false, t)
    | _ => (true, r)
  match parseDigits sr.2 with
  | some (ev, _, rest) =>
      some ((if sr.1 then v * (10 : ℚ) ^ ev else v / (10 : ℚ) ^ ev), rest)
  | none => none

/-- Optional exponent applied to the mantissa value. -/
def applyExp (v : ℚ) (l : List Char) : Option (ℚ × List Char) :=
  match l with
  | 'e' :: r => expAux v r
  | 'E' :: r => expAux v r
  | _ => some (v, l)

/-- Model of the Python float(str) conversion on the numeric grammar
(optional sign, ASCII digits with underscores, decimal point, exponent);
returns none exactly when Python raises ValueError.  The inf and nan
literals are not modelled: no price string in the claims uses them. -/
def pyFloat (s : String) : Option ℚ :=
  let sl := match s.data with
    | '+' :: t => ((1 : ℚ), t)
    | '-' :: t => ((-1 : ℚ), t)
    | _ => ((1 : ℚ), s.data)
  match parseMantissa sl.2 with
  | some (v, r1) =>
      match applyExp v r1 with
      | some (v2, []) => some (sl.1 * v2)
      | _ => none
  | none => none

/-- The exact currency literal appearing in extract_price in app.py.  Its
three characters U+00E2 U+201A U+00B9 are the mojibake rendering of the
rupee sign U+20B9, not the rupee sign itself. -/
def srcCurrencyLit : String := "â‚¹"

/-- Embedding of extract_price from app.py: remove the source currency
literal and commas, strip, convert with float; any conversion failure is
mapped to positive infinity (the top element). -/
def extract_price (product : Listing) : WithTop ℚ :=
  match pyFloat (pyStrip (pyReplace (pyReplace product.price srcCurrencyLit "") "," "")) with
  | some v => (v : WithTop ℚ)
  | none => (⊤ : WithTop ℚ)

/-- Embedding of is_query_abused from app.py: prune the window of the
given raw query key to the last 3600 seconds, append now, report abuse
when the resulting length exceeds 20. -/
def is_query_abused (qc : String → List Int) (query : String) (now : Int) :
    Bool × (String → List Int) :=
  let pruned := (qc query).filter (fun t => now - t < 3600)
  let w := pruned ++ [now]
  (decide (20 < w.length), updF qc query w)

/-- One raw offer object of the upstream response (only its link field is
read by app.py). -/
structure RawOffer where
  link : Option String
deriving DecidableEq

/-- One raw shopping_results item of the upstream response; all fields
are optional, as in the loosely typed provider payload. -/
structure RawItem where
  title : Option String
  price : Option String
  rating : Option String
  reviews : Option String
  link : Option String
  product_link : Option String
  offers : Option (List RawOffer)
  source : Option String
  thumbnail : Option String
deriving DecidableEq

/-- The link fallback chain of get_product_prices: link or product_link
or (first offer link when the offers list is truthy, else the empty
string), with Python or semantics. -/
def resolveLink (item : RawItem) : Option String :=
  pyOr (pyOr item.link item.product_link)
    (match item.offers with
     | some (o :: _) => o.link
     | _ => some "")

/-- The relative-link repair of get_product_prices: a truthy link that
does not start with http is prefixed with the Google web origin. -/
def fixLink : Option String → Option String
  | none => none
  | some s =>
      if pyTruthy s && !(pyStartsWith s "http") then
        some ("https://www.google.com" ++ s)
      else some s

/-- Normalization of one raw item into the listing dict built by
get_product_prices. -/
def normalizeItem (item : RawItem) : Listing :=
  { title := item.title.getD ""
  , price := item.price.getD ""
  , rating := item.rating
  , reviews := item.reviews
  , link := fixLink (resolveLink item)
  , store := item.source.getD ""
  , image := item.thumbnail.getD "" }

/-- The cache key built in get_product_prices: the query lowercased and
stripped, under the search namespace. -/
def cacheKey (query : String) : String :=
  "search:" ++ pyStrip (pyLower query)

/-- The cache read of get_product_prices: a present entry younger than
CACHE_TTL yields its data, anything else is absent. -/
def cacheGet (c : String → Option (List Listing × Int)) (query : String)
    (now : Int) : Option (List Listing) :=
  match c (cacheKey query) with
  | some dt => if now - dt.2 < CACHE_TTL then some dt.1 else none
  | none => none

/-- The cache write of get_product_prices: dict assignment of the data
with the store instant, replacing any previous entry wholesale. -/
def cachePut (c : String → Option (List Listing × Int)) (query : String)
    (l : List Listing) (now : Int) : String → Option (List Listing × Int) :=
  updF c (cacheKey query) (some (l, now))

/-- Result of one request through the protected fetch path: the returned
products, the final process state, the emitted log entries, the
exceptions reported to the telemetry sink, and whether the upstream
provider was invoked. -/
structure FetchOut where
  products : List Listing
  state : AppState
  logs : List LogEvent
  sentry : List String
  upstreamCalled : Bool

/-- Embedding of get_product_prices from app.py.  The upstream call is an
oracle: a list of raw items on success, an exception message on failure.
Control flow follows the source: rate limit gate, query abuse gate, cache
lookup, upstream call with normalization and cache store, and the except
branch that logs, reports to the telemetry sink and returns the empty
list. -/
def get_product_prices (st : AppState) (ip : String) (now : Int)
    (upstream : Except String (List RawItem)) (query : String) : FetchOut :=
  match is_rate_limited st ip now with
  | (true, st1, logs1) =>
      { products := []
      , state := st1
      , logs := logs1 ++ [⟨"RATE_LIMIT_HIT", ip, [("query", query)], "INFO"⟩]
      , sentry := []
      , upstreamCalled := false }
  | (false, st1, logs1) =>
      match is_query_abused st1.query_counter query now with
      | (true, qc2) =>
          { products := []
          , state := { st1 with query_counter := qc2 }
          , logs := logs1 ++ [⟨"QUERY_ABUSE", ip, [("query", query)], "INFO"⟩]
          , sentry := []
          , upstreamCalled := false }
      | (false, qc2) =>
          let st2 := { st1 with query_counter := qc2 }
          match cacheGet st2.cache query now with
          | some data =>
              { products := data
              , state := st2
              , logs := logs1 ++ [⟨"CACHE_HIT", ip, [("query", query)], "INFO"⟩]
              , sentry := []
              , upstreamCalled := false }
          | none =>
              match upstream with
              | Except.ok items =>
                  let products := items.map normalizeItem
                  { products := products
                  , state := { st2 with cache := cachePut st2.cache query products now }
                  , logs := logs1 ++ [⟨"SERPAPI_CALL", ip, [("query", query)], "INFO"⟩]
                  , sentry := []
                  , upstreamCalled := true }
              | Except.error e =>
                  { products := []
                  , state := st2
                  , logs := logs1 ++
                      [⟨"SERPAPI_CALL", ip, [("query", query)], "INFO"⟩,
                       ⟨"SERPAPI_ERROR", ip, [("error", e)], "WARN"⟩]
                  , sentry := [e]
                  , upstreamCalled := true }

/-- The price-ascending sort of the index route: Python sorted is the
stable ascending sort by the extract_price key, modelled with the stable
library mergeSort. -/
def sortedByPrice (l : List Listing) : List Listing :=
  l.mergeSort (fun a b => decide (extract_price a ≤ extract_price b))

/-- Post-processing of the index route: the optional weight filter
followed by the price sort. -/
def postProcess (weight : String) (l : List Listing) : List Listing :=
  sortedByPrice
    (if pyTruthy weight then l.filter (fun p => weight_in_title p.title weight) else l)

/-- Embedding of the POST branch of the index route in app.py: strip the
three form fields, join them into the query, validate, and on success run
the protected fetch followed by post-processing; on failure log and
return the empty product list with the state untouched. -/
def index_post (st : AppState) (ip : String) (now : Int)
    (upstream : Except String (List RawItem))
    (product_query brand_filter weight_filter : String) : FetchOut :=
  let product := pyStrip product_query
  let brand := pyStrip brand_filter
  let weight := pyStrip weight_filter
  let query := pyStrip (pyJoin " " [product, brand, weight])
  if is_valid_query query then
    let out := get_product_prices st ip now upstream query
    { out with products := postProcess weight out.products }
  else
    { products := []
    , state := st
    , logs := [⟨"INVALID_QUERY", ip, [("query", query)], "INFO"⟩]
    , sentry := []
    , upstreamCalled := false }

/-- Trace runner for the abuse throttle: the list of abuse verdicts for a
sequence of call instants on one query key. -/
def abuseTrace (qc : String → List Int) (q : String) : List Int → List Bool
  | [] => []
  | t :: ts =>
      match is_query_abused qc q t with
      | (r, qc2) => r :: abuseTrace qc2 q ts

/-- Listing with only a display price, for concrete price-sort inputs. -/
def mkPriceListing (p : String) : Listing :=
  { title := "", price := p, rating := none, reviews := none
  , link := none, store := "", image := "" }

/-- Concrete state with an active block for every client. -/
def stBlocked : AppState :=
  { request_log := fun _ => [], blocked_ips := fun _ => some 100
  , cache := fun _ => none, query_counter := fun _ => [] }

/-- Concrete state whose request window already holds RATE_LIMIT recent
entries for every client. -/
def stFull : AppState :=
  { request_log := fun _ => [0, 0, 0, 0, 0, 0, 0, 0, 0, 0]
  , blocked_ips := fun _ => none
  , cache := fun _ => none, query_counter := fun _ => [] }

/-- Concrete state with a block that expires at instant 910 and an old
full request window. -/
def stExpired : AppState :=
  { request_log := fun _ => [0, 0, 0, 0, 0, 0, 0, 0, 0, 0]
  , blocked_ips := fun _ => some 910
  , cache := fun _ => none, query_counter := fun _ => [] }

/-- Raw item with no usable link anywhere and a plain title. -/
def itemNoLink : RawItem :=
  { title := some "Red Shoes", price := none, rating := none, reviews := none
  , link := none, product_link := none, offers := none
  , source := none, thumbnail := none }

/-- Raw item whose only link is the relative path used in the spec
example. -/
def itemRelLink : RawItem :=
  { title := some "Shop Item", price := none, rating := none, reviews := none
  , link := some "/shop/x", product_link := none, offers := none
  , source := none, thumbnail := none }

/-- Updating a key and reading it back yields the new value. -/
theorem updF_apply_same {β : Type} (f : String → β) (k : String) (v : β) :
    updF f k v k = v := by
  simp [updF]

/-- Updating one key leaves every other key unchanged. -/
theorem updF_apply_ne {β : Type} (f : String → β) (k k2 : String) (v : β)
    (h : k2 ≠ k) : updF f k v k2 = f k2 := by
  simp [updF, h]

/-- The rate limiter never touches the cache or the query counter. -/
theorem rl_keeps_cache_qc (st : AppState) (ip : String) (now : Int) :
    (is_rate_limited st ip now).2.1.cache = st.cache ∧
    (is_rate_limited st ip now).2.1.query_counter = st.query_counter := by
  unfold is_rate_limited rlCore
  cases st.blocked_ips ip with
  | none => dsimp only; split <;> simp
  | some b =>
      dsimp only
      split
      · simp
      · split <;> simp

/-- C1: the rate limiter denies while a block is active (with no state
change), denies and records a block expiring at now + BLOCK_TIME as soon
as the pruned window holds at least RATE_LIMIT entries (so exactly at the
threshold is denied), and with no active block and a pruned window below
the threshold it allows the call, removes any expired block, and appends
the current instant to the pruned window. -/
theorem c1_rate_limiter :
    (∀ (st : AppState) (ip : String) (now b : Int),
        st.blocked_ips ip = some b → now < b →
        is_rate_limited st ip now = (true, st, [])) ∧
    (∀ (st : AppState) (ip : String) (now : Int),
        (∀ b, st.blocked_ips ip = some b → b ≤ now) →
        RATE_LIMIT ≤ (pruneWindow now (st.request_log ip)).length →
        (is_rate_limited st ip now).1 = true ∧
        (is_rate_limited st ip now).2.1.blocked_ips ip = some (now + BLOCK_TIME)) ∧
    (∀ (st : AppState) (ip : String) (now : Int),
        (∀ b, st.blocked_ips ip = some b → b ≤ now) →
        (pruneWindow now (st.request_log ip)).length < RATE_LIMIT →
        (is_rate_limited st ip now).1 = false ∧
        (is_rate_limited st ip now).2.1.blocked_ips ip = none ∧
        (is_rate_limited st ip now).2.1.request_log ip =
          pruneWindow now (st.request_log ip) ++ [now]) := by
  refine ⟨?_, ?_, ?_⟩
  · intro st ip now b hb hlt
    unfold is_rate_limited
    rw [hb]
    simp [hlt]
  · intro st ip now hb hlen
    unfold is_rate_limited rlCore
    cases h : st.blocked_ips ip with
    | none => simp [hlen, updF]
    | some b =>
        have hnlt : ¬ now < b := by
          have := hb b h
          omega
        simp [hnlt, hlen, updF]
  · intro st ip now hb hlen
    have hnot : ¬ RATE_LIMIT ≤ (pruneWindow now (st.request_log ip)).length := by
      omega
    unfold is_rate_limited rlCore
    cases h : st.blocked_ips ip with
    | none => simp [hnot, updF, h]
    | some b =>
        have hnlt : ¬ now < b := by
          have := hb b h
          omega
        simp [hnlt, hnot, updF]

/-- Witness for C1: a blocked client is denied untouched at instant 50; a
client with ten window entries at instant 0 is denied and blocked until
instant 900; a client whose block expired at instant 910 with a stale
window is allowed again, its block removed and its call recorded. -/
theorem c1_rate_limiter_witness :
    is_rate_limited stBlocked "c" 50 = (true, stBlocked, []) ∧
    ((is_rate_limited stFull "c" 0).1 = true ∧
      (is_rate_limited stFull "c" 0).2.1.blocked_ips "c" = some (0 + BLOCK_TIME)) ∧
    ((is_rate_limited stExpired "c" 910).1 = false ∧
      (is_rate_limited stExpired "c" 910).2.1.blocked_ips "c" = none ∧
      (is_rate_limited stExpired "c" 910).2.1.request_log "c" =
        pruneWindow 910 (stExpired.request_log "c") ++ [910]) := by
  refine ⟨c1_rate_limiter.1 stBlocked "c" 50 100 rfl (by decide),
          c1_rate_limiter.2.1 stFull "c" 0 ?_ (by decide),
          c1_rate_limiter.2.2 stExpired "c" 910 ?_ (by decide)⟩
  · intro b hb
    simp [stFull] at hb
  · intro b hb
    simp [stExpired] at hb
    omega

/-- C4: after a cache store for query q, a lookup under any query with
the same lowercased-stripped text returns exactly the stored listings
while the age is below CACHE_TTL, is treated as absent once the age
reaches CACHE_TTL, and the store replaced any previous entry for the key
wholesale. -/
theorem c4_cache_roundtrip :
    ∀ (c : String → Option (List Listing × Int)) (q q2 : String)
      (l : List Listing) (t now : Int),
      pyStrip (pyLower q2) = pyStrip (pyLower q) →
      ((now - t < CACHE_TTL → cacheGet (cachePut c q l t) q2 now = some l) ∧
       (CACHE_TTL ≤ now - t → cacheGet (cachePut c q l t) q2 now = none) ∧
       cachePut c q l t (cacheKey q) = some (l, t)) := by
  intro c q q2 l t now hk
  have hkey : cacheKey q2 = cacheKey q := by
    unfold cacheKey
    rw [hk]
  refine ⟨?_, ?_, ?_⟩
  · intro hf
    unfold cacheGet cachePut
    rw [hkey, updF_apply_same]
    simp [hf]
  · intro hs
    have hnf : ¬ (now - t < CACHE_TTL) := by omega
    unfold cacheGet cachePut
    rw [hkey, updF_apply_same]
    simp [hnf]
  · unfold cachePut
    rw [updF_apply_same]

/-- Witness for C4: storing under the raw query Milk with a trailing
space and reading back under milk hits the same entry, is fresh at age 5,
expires at age 1200, and the store overwrote the key. -/
theorem c4_cache_roundtrip_witness :
    cacheGet (cachePut (fun _ => none) "Milk " [mkPriceListing "250"] 0) "milk" 5 =
      some [mkPriceListing "250"] ∧
    cacheGet (cachePut (fun _ => none) "Milk " [mkPriceListing "250"] 0) "milk" 1200 =
      none ∧
    cachePut (fun _ => none) "Milk " [mkPriceListing "250"] 0 (cacheKey "Milk ") =
      some ([mkPriceListing "250"], 0) := by
  refine ⟨(c4_cache_roundtrip _ "Milk " "milk" _ 0 5 (by decide)).1 (by decide),
          (c4_cache_roundtrip _ "Milk " "milk" _ 0 1200 (by decide)).2.1 (by decide),
          (c4_cache_roundtrip _ "Milk " "milk" _ 0 0 (by decide)).2.2⟩

/-- C5: the abuse check stores the pruned hour window with the current
instant always appended (also on an abused verdict), reports abuse
exactly when the window length after the append exceeds 20, in
particular whenever the pruned window already holds at least 20 entries,
and on a trace of 22 calls within one hour the first 20 are clean while
calls 21 and 22 are flagged. -/
theorem c5_abuse_throttle :
    (∀ (qc : String → List Int) (q : String) (now : Int),
        (is_query_abused qc q now).2 q =
          (qc q).filter (fun t => now - t < 3600) ++ [now]) ∧
    (∀ (qc : String → List Int) (q : String) (now : Int),
        ((is_query_abused qc q now).1 = true ↔
          20 < ((qc q).filter (fun t => now - t < 3600)).length + 1)) ∧
    (∀ (qc : String → List Int) (q : String) (now : Int),
        20 ≤ ((qc q).filter (fun t => now - t < 3600)).length →
        (is_query_abused qc q now).1 = true) ∧
    abuseTrace (fun _ => []) "milk" ((List.range 22).map Int.ofNat) =
      List.replicate 20 false ++ [true, true] := by
  refine ⟨?_, ?_, ?_, by decide⟩
  · intro qc q now
    simp [is_query_abused, updF]
  · intro qc q now
    simp [is_query_abused]
  · intro qc q now h
    simp [is_query_abused]
    omega

/-- Witness for C5: with 20 recent entries already recorded for the
query, the next check within the hour reports abuse. -/
theorem c5_abuse_throttle_witness :
    (is_query_abused (fun _ => List.replicate 20 (0 : Int)) "milk" 10).1 = true := by
  exact c5_abuse_throttle.2.2.1 _ "milk" 10 (by decide)

/-- The index route on a query the validator rejects: empty products,
untouched state, no upstream call, only the invalid-query log entry. -/
theorem index_post_rejects (st : AppState) (ip : String) (now : Int)
    (upstream : Except String (List RawItem)) (pq bf wf : String)
    (h : is_valid_query (pyStrip (pyJoin " " [pyStrip pq, pyStrip bf, pyStrip wf])) = false) :
    index_post st ip now upstream pq bf wf =
      { products := []
      , state := st
      , logs := [⟨"INVALID_QUERY", ip,
          [("query", pyStrip (pyJoin " " [pyStrip pq, pyStrip bf, pyStrip wf]))], "INFO"⟩]
      , sentry := []
      , upstreamCalled := false } := by
  unfold index_post
  simp [h]

/-- C9: when the joined form input fails validation, the index route
returns the empty result set with the process state unchanged (no
rate-limit quota consumed, no cache or abuse-window write) and the
upstream fetcher is never invoked. -/
theorem c9_validation_first :
    ∀ (st : AppState) (ip : String) (now : Int)
      (upstream : Except String (List RawItem)) (pq bf wf : String),
      is_valid_query (pyStrip (pyJoin " " [pyStrip pq, pyStrip bf, pyStrip wf])) = false →
      index_post st ip now upstream pq bf wf =
        { products := []
        , state := st
        , logs := [⟨"INVALID_QUERY", ip,
            [("query", pyStrip (pyJoin " " [pyStrip pq, pyStrip bf, pyStrip wf]))], "INFO"⟩]
        , sentry := []
        , upstreamCalled := false } := by
  intro st ip now upstream pq bf wf h
  exact index_post_rejects st ip now upstream pq bf wf h

/-- Witness for C9: the two-character query xy is rejected and the
request leaves the initial state untouched with no upstream call. -/
theorem c9_validation_first_witness :
    index_post initState "1.1.1.1" 0 (Except.ok []) "xy" "" "" =
      { products := []
      , state := initState
      , logs := [⟨"INVALID_QUERY", "1.1.1.1",
          [("query", pyStrip (pyJoin " " [pyStrip "xy", pyStrip "", pyStrip ""]))], "INFO"⟩]
      , sentry := []
      , upstreamCalled := false } := by
  exact c9_validation_first initState "1.1.1.1" 0 (Except.ok []) "xy" "" "" (by decide)

/-- C10: any query whose lowercased stripped text contains the
space-delimited word or, or the space-delimited word and, fails
validation; in particular the benign search bread and butter is rejected
and its request produces the empty result set with no upstream call and
no state change. -/
theorem c10_keyword_rejection :
    (∀ q : String,
        (containsSub (" or ").data (pyLower (pyStrip q)).data = true ∨
         containsSub (" and ").data (pyLower (pyStrip q)).data = true) →
        is_valid_query q = false) ∧
    is_valid_query "bread and butter" = false ∧
    index_post initState "1.1.1.1" 0 (Except.ok []) "bread and butter" "" "" =
      { products := []
      , state := initState
      , logs := [⟨"INVALID_QUERY", "1.1.1.1",
          [("query", pyStrip (pyJoin " " [pyStrip "bread and butter", pyStrip "", pyStrip ""]))],
          "INFO"⟩]
      , sentry := []
      , upstreamCalled := false } := by
  refine ⟨?_, by decide, index_post_rejects _ _ _ _ _ _ _ (by decide)⟩
  intro q h
  unfold is_valid_query
  by_cases hq : q == ""
  · simp [hq]
  · simp only [hq, Bool.false_eq_true, if_false]
    by_cases hlen : (pyStrip q).length < 3 || 100 < (pyStrip q).length
    · simp [hlen]
    · simp only [hlen, Bool.false_eq_true, if_false, Bool.not_eq_false']
      rcases h with h | h
      · exact List.any_eq_true.mpr ⟨" or ", by simp [blocked_patterns], h⟩
      · exact List.any_eq_true.mpr ⟨" and ", by simp [blocked_patterns], h⟩

/-- Witness for C10: the query bread and butter satisfies the keyword
hypothesis and is rejected by the validator. -/
theorem c10_keyword_rejection_witness :
    is_valid_query "bread and butter" = false := by
  exact c10_keyword_rejection.1 "bread and butter" (Or.inr (by decide))

/-- Counterexample for C8: contrary to the claim, the weight token 1-kg
does not match the title Amul Milk 1 Kg, because the hyphen of the token
is escaped into a mandatory literal hyphen of the pattern while the
title has a space there. -/
theorem c8_counterexample :
    weight_in_title "Amul Milk 1 Kg" "1-kg" = false := by decide

/-- C8 amended: the title Amul Milk 1 Kg matches the weight tokens 1kg
and 1 kg but neither 2kg nor the hyphenated token 1-kg (a hyphenated
token only matches titles that contain the hyphen literally); an empty
weight token always passes the title test and the route applies no
filter at all. -/
theorem c8_weight_filter :
    weight_in_title "Amul Milk 1 Kg" "1kg" = true ∧
    weight_in_title "Amul Milk 1 Kg" "1 kg" = true ∧
    weight_in_title "Amul Milk 1 Kg" "2kg" = false ∧
    weight_in_title "Amul Milk 1 Kg" "1-kg" = false ∧
    weight_in_title "Amul Milk 1-Kg" "1-kg" = true ∧
    (∀ title : String, weight_in_title title "" = true) ∧
    (∀ l : List Listing, postProcess "" l = sortedByPrice l) := by
  refine ⟨by decide, by decide, by decide, by decide, by decide, ?_, ?_⟩
  · intro title
    simp [weight_in_title]
  · intro l
    simp [postProcess, pyTruthy]

/-- A string starting with http cannot start with a slash. -/
theorem http_not_slash (s : String) (h : pyStartsWith s "http" = true) :
    pyStartsWith s "/" = false := by
  unfold pyStartsWith at h ⊢
  have h4 : ("http").data = 'h' :: ("ttp").data := rfl
  have h1 : ("/").data = ['/'] := rfl
  rw [h4] at h
  rw [h1]
  cases hd : s.data with
  | nil =>
      rw [hd] at h
      simp [isPrefixList] at h
  | cons c t =>
      rw [hd] at h
      simp only [isPrefixList, Bool.and_eq_true, beq_iff_eq] at h
      obtain ⟨hc, -⟩ := h
      subst hc
      simp [isPrefixList]

/-- Prefixing with the Google origin yields a link that starts with
http. -/
theorem google_prefix_http (s : String) :
    pyStartsWith ("https://www.google.com" ++ s) "http" = true := by
  unfold pyStartsWith
  rw [String.data_append]
  have e1 : ("https://www.google.com").data =
      'h' :: 't' :: 't' :: 'p' :: ("s://www.google.com").data := rfl
  have e4 : ("http").data = ['h', 't', 't', 'p'] := rfl
  rw [e1, e4]
  simp [isPrefixList]

/-- Counterexample for C2: an upstream item with no link fields at all
and title Red Shoes is stored with the empty-string link; no web-search
URL containing Red+Shoes is synthesized from the title. -/
theorem c2_counterexample :
    (normalizeItem itemNoLink).link = some "" ∧
    containsSub ("Red+Shoes").data ("").data = false := by decide

/-- C2 amended: the resolved link is the first truthy value of the
primary link field, the alternate product-link field and the first offer
link (the empty string when the offers list is absent or empty); a
truthy resolved link that does not start with http is prefixed with the
Google web origin (so the relative link of the spec example becomes
absolute and no stored link ever starts with a slash); when every link
field is falsy the stored link stays empty and no search URL is built
from the title. -/
theorem c2_link_resolution :
    (∀ (it : RawItem) (s : String), it.link = some s → s ≠ "" →
        resolveLink it = some s) ∧
    (∀ (it : RawItem) (s : String), pyTruthyOpt it.link = false →
        it.product_link = some s → s ≠ "" → resolveLink it = some s) ∧
    (∀ (it : RawItem) (o : RawOffer) (os : List RawOffer),
        pyTruthyOpt it.link = false → pyTruthyOpt it.product_link = false →
        it.offers = some (o :: os) → resolveLink it = o.link) ∧
    (∀ it : RawItem, pyTruthyOpt it.link = false →
        pyTruthyOpt it.product_link = false →
        (it.offers = none ∨ it.offers = some []) → resolveLink it = some "") ∧
    (∀ s : String, s ≠ "" → pyStartsWith s "http" = false →
        fixLink (some s) = some ("https://www.google.com" ++ s)) ∧
    (∀ s : String, pyStartsWith s "http" = true → fixLink (some s) = some s) ∧
    fixLink (some "/shop/x") = some "https://www.google.com/shop/x" ∧
    (∀ (it : RawItem) (s : String), (normalizeItem it).link = some s →
        pyStartsWith s "/" = false) := by
  refine ⟨?_, ?_, ?_, ?_, ?_, ?_, by decide, ?_⟩
  · intro it s h hs
    have hbs : (s == "") = false := beq_eq_false_iff_ne.mpr hs
    simp [resolveLink, pyOr, h, pyTruthyOpt, pyTruthy, hbs]
  · intro it s hl h hs
    have hbs : (s == "") = false := beq_eq_false_iff_ne.mpr hs
    have hts : pyTruthyOpt (some s) = true := by
      simp [pyTruthyOpt, pyTruthy, hbs]
    simp [resolveLink, pyOr, hl, h, hts]
  · intro it o os hl hp ho
    simp [resolveLink, pyOr, hl, hp, ho]
  · intro it hl hp ho
    rcases ho with h | h <;> simp [resolveLink, pyOr, hl, hp, h]
  · intro s hs hh
    have hbs : (s == "") = false := beq_eq_false_iff_ne.mpr hs
    simp [fixLink, pyTruthy, hbs, hh]
  · intro s hh
    simp [fixLink, hh]
  · intro it s h
    simp only [normalizeItem] at h
    cases hr : resolveLink it with
    | none =>
        rw [hr] at h
        simp [fixLink] at h
    | some s0 =>
        rw [hr] at h
        simp only [fixLink] at h
        by_cases hc : pyTruthy s0 && !(pyStartsWith s0 "http")
        · rw [if_pos hc] at h
          have hs : s = "https://www.google.com" ++ s0 := by
            injection h with h2
            exact h2.symm
          subst hs
          exact http_not_slash _ (google_prefix_http s0)
        · rw [if_neg hc] at h
          injection h with h2
          subst h2
          by_cases ht : pyTruthy s0
          · have hh : pyStartsWith s0 "http" = true := by
              by_contra hhh
              apply hc
              simp [ht]
              simpa using hhh
            exact http_not_slash _ hh
          · have he : s0 = "" := by
              simpa [pyTruthy] using ht
            subst he
            decide

/-- Witness for C2: the primary link wins when truthy, the relative link
of the spec example is made absolute, and the repaired link does not
start with a slash. -/
theorem c2_link_resolution_witness :
    resolveLink
      { title := none, price := none, rating := none, reviews := none
      , link := some "http://x", product_link := none, offers := none
      , source := none, thumbnail := none } = some "http://x" ∧
    fixLink (some "/shop/x") = some ("https://www.google.com" ++ "/shop/x") ∧
    pyStartsWith "https://www.google.com/shop/x" "/" = false := by
  refine ⟨c2_link_resolution.1 _ "http://x" rfl (by decide),
          c2_link_resolution.2.2.2.2.1 "/shop/x" (by decide) (by decide),
          c2_link_resolution.2.2.2.2.2.2.2 itemRelLink "https://www.google.com/shop/x"
            (by decide)⟩

/-- Counterexample for C3: in a concrete failing run the error log entry
carries only the error text in its metadata; the failing query appears in
the preceding call entry, not in the error entry, so the failure is not
logged together with the query as claimed. -/
theorem c3_counterexample :
    (get_product_prices initState "1.1.1.1" 0 (Except.error "boom") "red shoes").logs =
      [⟨"SERPAPI_CALL", "1.1.1.1", [("query", "red shoes")], "INFO"⟩,
       ⟨"SERPAPI_ERROR", "1.1.1.1", [("error", "boom")], "WARN"⟩] ∧
    (((get_product_prices initState "1.1.1.1" 0 (Except.error "boom") "red shoes").logs.filter
        (fun le2 => le2.event == "SERPAPI_ERROR")).all
      (fun le2 => le2.meta.all (fun kv => !(kv.2 == "red shoes")))) = true := by
  constructor
  · decide
  · decide

/-- C3 amended: whenever the gates pass (not rate limited, query not
abused, cache miss) and the upstream call fails with any exception, the
fetcher catches it, reports it to the telemetry sink, logs an error entry
carrying the client id and the error text (the failing query appears only
in the preceding upstream-call log entry), and returns the empty listing
sequence; the exception never escapes the fetch. -/
theorem c3_upstream_failure :
    ∀ (st : AppState) (ip : String) (now : Int) (q e : String),
      (is_rate_limited st ip now).1 = false →
      (is_query_abused st.query_counter q now).1 = false →
      cacheGet st.cache q now = none →
      ((get_product_prices st ip now (Except.error e) q).products = [] ∧
       (get_product_prices st ip now (Except.error e) q).sentry = [e] ∧
       (get_product_prices st ip now (Except.error e) q).upstreamCalled = true ∧
       (get_product_prices st ip now (Except.error e) q).logs =
         (is_rate_limited st ip now).2.2 ++
           [⟨"SERPAPI_CALL", ip, [("query", q)], "INFO"⟩,
            ⟨"SERPAPI_ERROR", ip, [("error", e)], "WARN"⟩]) := by
  intro st ip now q e h1 h2 h3
  have hpres := rl_keeps_cache_qc st ip now
  rcases hrl : is_rate_limited st ip now with ⟨b, st1, logs1⟩
  rw [hrl] at h1 hpres
  dsimp only at h1 hpres
  subst h1
  rcases hab : is_query_abused st.query_counter q now with ⟨ab, qc2⟩
  rw [hab] at h2
  dsimp only at h2
  subst h2
  have hab2 : is_query_abused st1.query_counter q now = (false, qc2) := by
    rw [hpres.2, hab]
  unfold get_product_prices
  rw [hrl]
  dsimp only
  rw [hab2]
  dsimp only
  have hcg : cacheGet st1.cache q now = none := by
    rw [hpres.1, h3]
  rw [hcg]
  simp

/-- Witness for C3: a concrete failed upstream call from the initial
state returns no products, reports the exception, marks the upstream as
invoked and emits the two log entries. -/
theorem c3_upstream_failure_witness :
    (get_product_prices initState "1.1.1.1" 0 (Except.error "boom") "red shoes").products = [] ∧
    (get_product_prices initState "1.1.1.1" 0 (Except.error "boom") "red shoes").sentry = ["boom"] ∧
    (get_product_prices initState "1.1.1.1" 0 (Except.error "boom") "red shoes").upstreamCalled = true ∧
    (get_product_prices initState "1.1.1.1" 0 (Except.error "boom") "red shoes").logs =
      (is_rate_limited initState "1.1.1.1" 0).2.2 ++
        [⟨"SERPAPI_CALL", "1.1.1.1", [("query", "red shoes")], "INFO"⟩,
         ⟨"SERPAPI_ERROR", "1.1.1.1", [("error", "boom")], "WARN"⟩] := by
  exact c3_upstream_failure initState "1.1.1.1" 0 "red shoes" "boom"
    (by decide) (by decide) (by decide)

/-- Counterexample for C6: two requests from different clients whose
queries Milk and milk are equal after normalization are recorded in two
different abuse windows (one timestamp each), not in one shared window
keyed by the normalized query, because the code keys the counter by the
raw query string. -/
theorem c6_counterexample :
    ((get_product_prices (get_product_prices initState "1.1.1.1" 0 (Except.ok []) "Milk").state
        "2.2.2.2" 0 (Except.ok []) "milk").state.query_counter "milk" = [0]) ∧
    ((get_product_prices (get_product_prices initState "1.1.1.1" 0 (Except.ok []) "Milk").state
        "2.2.2.2" 0 (Except.ok []) "milk").state.query_counter "Milk" = [0]) ∧
    ¬ ((get_product_prices (get_product_prices initState "1.1.1.1" 0 (Except.ok []) "Milk").state
        "2.2.2.2" 0 (Except.ok []) "milk").state.query_counter "milk" = [0, 0]) := by
  refine ⟨by decide, by decide, by decide⟩

/-- C6 amended: the abuse throttle is keyed by the exact raw query string
and takes no client identity at all: an update touches only its own raw
key, records the pruned window with the instant appended there, and two
requests from different clients with the same raw query accumulate in
one shared window; queries that agree only after lowercasing and
trimming are counted in separate windows. -/
theorem c6_abuse_keying :
    (∀ (qc : String → List Int) (q q2 : String) (now : Int), q2 ≠ q →
        (is_query_abused qc q now).2 q2 = qc q2) ∧
    (∀ (qc : String → List Int) (q : String) (now : Int),
        (is_query_abused qc q now).2 q =
          (qc q).filter (fun t => now - t < 3600) ++ [now]) ∧
    ((get_product_prices (get_product_prices initState "1.1.1.1" 0 (Except.ok []) "milk").state
        "2.2.2.2" 1 (Except.ok []) "milk").state.query_counter "milk" = [0, 1]) := by
  refine ⟨?_, ?_, by decide⟩
  · intro qc q q2 now h
    simp [is_query_abused, updF, h]
  · intro qc q now
    simp [is_query_abused, updF]

/-- Witness for C6: updating the window of the query milk leaves the
window of the query bread untouched. -/
theorem c6_abuse_keying_witness :
    (is_query_abused (fun _ => []) "milk" 0).2 "bread" = [] := by
  exact c6_abuse_keying.1 _ "milk" "bread" 0 (by decide)

/-- C7, code bug: extract_price strips the three-character mojibake
sequence U+00E2 U+201A U+00B9 instead of the real rupee sign U+20B9, so
the display prices of the spec example all fail to parse and share the
infinite sort key (the sort then keeps their input order); with the
mojibake spelling the digits do parse, which shows the intended
behavior and locates the encoding slip. -/
theorem c7_price_parse_bug :
    extract_price (mkPriceListing "₹250") = (⊤ : WithTop ℚ) ∧
    extract_price (mkPriceListing "₹1,200") = (⊤ : WithTop ℚ) ∧
    extract_price (mkPriceListing "abc") = (⊤ : WithTop ℚ) ∧
    extract_price (mkPriceListing "â‚¹250") = ((250 : ℚ) : WithTop ℚ) ∧
    extract_price (mkPriceListing "1,200") = ((1200 : ℚ) : WithTop ℚ) ∧
    sortedByPrice [mkPriceListing "₹250", mkPriceListing "₹1,200", mkPriceListing "abc"] =
      [mkPriceListing "₹250", mkPriceListing "₹1,200", mkPriceListing "abc"] := by
  refine ⟨by decide, by decide, by decide, ?_, ?_, ?_⟩
  · with_unfolding_all rfl
  · with_unfolding_all rfl
  · unfold sortedByPrice
    exact List.mergeSort_of_sorted (by decide)
